import Mathlib

/-!
Shallow embedding of the mail-gateway server (`src/server/server.js`) and
verification of its specification claims.  Pure computations (range
arithmetic, tree walks, regex-based sanitization, string composition) are
translated into executable Lean functions; the event/callback-driven request
pipelines are translated into explicit step functions over request state,
driven by lists of completion events (message arrival, fetch error, fetch end,
watchdog firing).  Event payloads that no property inspects (raw message
bytes, parsed email objects) are carried as opaque strings.
-/

namespace MailGateway

/-- JS truthiness for an optional string field: `undefined`/`null` and the
empty string are falsy. -/
def jsTruthy : Option String → Bool
  | none => false
  | some s => !s.isEmpty

/-- JS `x || d` for an optional string: the default replaces absent or empty. -/
def orDefault (o : Option String) (d : String) : String :=
  match o with
  | none => d
  | some s => if s.isEmpty then d else s

/-! ## Listing pipeline: range computation (`/api/emails`, lines 153-162) -/

/-- `const lastCount = Math.min(30, box.messages.total)` -/
def lastCount (total : Nat) : Nat := min 30 total

/-- `const start = Math.max(1, box.messages.total - lastCount + 1)` -/
def rangeStart (total : Nat) : Nat := max 1 (total - lastCount total + 1)

/-- The listing handler's pre-fetch decision: `total === 0` short-circuits to
an immediate empty-list response (`none`); otherwise the fetched
sequence-number range is `start:total` (`some (start, total)`). -/
def listingPlan (total : Nat) : Option (Nat × Nat) :=
  if total = 0 then none
  else some (rangeStart total, total)

/-! ## Listing pipeline: response machine (`/api/emails`, lines 164-348) -/

/-- `{name, address}` pair parsed from a header. -/
structure Address where
  name : String
  address : String
deriving DecidableEq, Repr

/-- The per-message summary object built by the listing pipeline
(lines 193-203).  `fromAddr`/`toAddrs` model `from`/`to` (`from` is a Lean
keyword); `date` carries the date's rendering opaquely. -/
structure EmailSummary where
  id : String
  uid : Option String
  subject : String
  fromAddr : Address
  toAddrs : List Address
  date : String
  body : String
  isRead : Bool
  hasAttachments : Bool
deriving DecidableEq, Repr

/-- `'Zeitüberschreitung beim Abrufen der E-Mails'` (line 179). -/
def listTimeoutMsg : String := "Zeitüberschreitung beim Abrufen der E-Mails"

/-- A response sent by the listing handler.  `okEmails emails incomplete`
models `res.json({success:true, emails, partial:true?})` (the boolean is the
`partial` flag); `errResp s m` models `res.status(s).json({success:false,
error:m})`. -/
inductive ListResponse where
  | okEmails (emails : List EmailSummary) (incomplete : Bool)
  | errResp (status : Nat) (msg : String)
deriving DecidableEq, Repr

/-- Completion events that can be delivered to the listing handler by the
event loop: a message summary finishing (`msg.once('end')`, line 305), the
30-second watchdog firing (line 169), `fetch.once('error')` (line 311) and
`fetch.once('end')` (line 325). -/
inductive ListEvent where
  | message (e : EmailSummary)
  | timeoutFire
  | fetchError (msg : String)
  | fetchEnd
deriving DecidableEq, Repr

/-- Mutable request state of the listing handler: the accumulated summaries,
the single-use `hasResponded` flag, whether the watchdog is still pending
(`clearTimeout` not yet called and not yet fired), and every response sent so
far (in order). -/
structure ListState where
  hasResponded : Bool
  timerActive : Bool
  emails : List EmailSummary
  responses : List ListResponse
deriving DecidableEq, Repr

/-- Initial listing request state (lines 164-166). -/
def listInitState : ListState :=
  { hasResponded := false, timerActive := true, emails := [], responses := [] }

/-- One event handler dispatch of the listing pipeline, translated from the
handlers registered at lines 169-183 (timeout), 192-309 (message),
311-323 (fetch error) and 325-348 (fetch end).  The fetch-end success payload
is the accumulated list (the code sorts it by date descending before
responding; no property here depends on the ordering). -/
def listStep (s : ListState) (ev : ListEvent) : ListState :=
  match ev with
  | .message e => { s with emails := s.emails ++ [e] }
  | .timeoutFire =>
      if s.timerActive then
        if !s.hasResponded then
          { s with timerActive := false, hasResponded := true,
                   responses := s.responses ++
                     [if s.emails.length > 0 then .okEmails s.emails true
                      else .errResp 500 listTimeoutMsg] }
        else { s with timerActive := false }
      else s
  | .fetchError m =>
      if !s.hasResponded then
        { s with timerActive := false, hasResponded := true,
                 responses := s.responses ++
                   [if s.emails.length > 0 then .okEmails s.emails true
                    else .errResp 500 m] }
      else s
  | .fetchEnd =>
      if !s.hasResponded then
        { s with timerActive := false, hasResponded := true,
                 responses := s.responses ++ [.okEmails s.emails false] }
      else { s with timerActive := false }

/-- Run the listing handler over a sequence of delivered events. -/
def listRun (events : List ListEvent) : ListState :=
  events.foldl listStep listInitState

/-! ## Single-message pipeline: response machine (`/api/email/:id`, lines 376-627) -/

/-- `'Zeitüberschreitung beim Laden der E-Mail. Die E-Mail könnte zu groß
sein.'` (line 381). -/
def singleTimeoutMsg : String :=
  "Zeitüberschreitung beim Laden der E-Mail. Die E-Mail könnte zu groß sein."

/-- `'E-Mail nicht gefunden'` (lines 575 and 607). -/
def notFoundMsg : String := "E-Mail nicht gefunden"

/-- A response sent by the single-message handler.  `okParsed data` models
`res.json({success:true, email: emailData})` with the parsed payload opaque;
`okFallback m` models the degraded `res.json({success:true, email:
fallbackEmail, partial:true})` built after a parse failure with message `m`;
`errResp s m` models `res.status(s).json({success:false, error:m})`. -/
inductive SingleResponse where
  | okParsed (data : String)
  | okFallback (errMsg : String)
  | errResp (status : Nat) (msg : String)
deriving DecidableEq, Repr

/-- Completion events deliverable to the single-message handler:
the 180-second watchdog firing (line 377); `simpleParser` resolving
(line 453) or rejecting (line 508); the synchronous stream-processing
exception (line 536); the UID fetch's `error` (line 548) and `end` (line 589)
events — each carrying `none` if the fallback `imap.seq.fetch` call is created
successfully and `some m` if its creation throws synchronously (lines 578 and
610); and the fallback sequence fetch's `message`, `error` and `end` events. -/
inductive SingleEvent where
  | timeoutFire
  | parseOk (data : String)
  | parseFail (msg : String)
  | streamError (msg : String)
  | uidFetchError (msg : String) (createFail : Option String)
  | uidFetchEnd (createFail : Option String)
  | seqFetchMessage (raw : String)
  | seqFetchError (msg : String)
  | seqFetchEnd
deriving DecidableEq, Repr

/-- Mutable request state of the single-message handler: `hasResponded` and
`fetchCompleted` (lines 391-392), whether the watchdog is still pending,
which fallback sequence-fetch handlers have been registered
(`seqErrHandlers`: the `error`+`end` pair from the UID-error path, lines
561-577; `seqEndHandler`: the lone `end` handler from the UID-end path, lines
602-609 — that path registers no `error` handler), and the responses sent. -/
structure SingleState where
  hasResponded : Bool
  fetchCompleted : Bool
  timerActive : Bool
  seqErrHandlers : Bool
  seqEndHandler : Bool
  responses : List SingleResponse
deriving DecidableEq, Repr

/-- Initial single-message request state. -/
def singleInitState : SingleState :=
  { hasResponded := false, fetchCompleted := false, timerActive := true,
    seqErrHandlers := false, seqEndHandler := false, responses := [] }

/-- One event handler dispatch of the single-message pipeline, translated
handler by handler from lines 377-627.  Notably: the watchdog handler (lines
377-383) neither tests nor sets `hasResponded`; and the fallback
`imap.seq.fetch` calls register no `message` handler — the processing is
absent from the source (`// gleiche Verarbeitung wie oben` at lines 558 and
599) — so `seqFetchMessage` is dropped. -/
def singleStep (s : SingleState) (ev : SingleEvent) : SingleState :=
  match ev with
  | .timeoutFire =>
      if s.timerActive then
        { s with timerActive := false,
                 responses := s.responses ++ [.errResp 504 singleTimeoutMsg] }
      else s
  | .parseOk data =>
      if s.fetchCompleted then s
      else
        if !s.hasResponded then
          { s with fetchCompleted := true, hasResponded := true,
                   timerActive := false,
                   responses := s.responses ++ [.okParsed data] }
        else { s with fetchCompleted := true }
  | .parseFail m =>
      if !s.hasResponded && !s.fetchCompleted then
        { s with fetchCompleted := true, hasResponded := true,
                 timerActive := false,
                 responses := s.responses ++ [.okFallback m] }
      else s
  | .streamError m =>
      if !s.hasResponded then
        { s with hasResponded := true, timerActive := false,
                 responses := s.responses ++ [.errResp 500 m] }
      else s
  | .uidFetchError _ createFail =>
      if !s.hasResponded && !s.fetchCompleted then
        match createFail with
        | none => { s with seqErrHandlers := true }
        | some m =>
            if !s.hasResponded then
              { s with hasResponded := true, timerActive := false,
                       responses := s.responses ++ [.errResp 500 m] }
            else s
      else s
  | .uidFetchEnd createFail =>
      if !s.hasResponded && !s.fetchCompleted then
        match createFail with
        | none => { s with seqEndHandler := true }
        | some m =>
            if !s.hasResponded then
              { s with hasResponded := true, timerActive := false,
                       responses := s.responses ++ [.errResp 500 m] }
            else s
      else s
  | .seqFetchMessage _ => s
  | .seqFetchError m =>
      if s.seqErrHandlers then
        if !s.hasResponded then
          { s with hasResponded := true, timerActive := false,
                   responses := s.responses ++ [.errResp 500 m] }
        else s
      else s
  | .seqFetchEnd =>
      if s.seqErrHandlers || s.seqEndHandler then
        if !s.hasResponded && !s.fetchCompleted then
          { s with hasResponded := true, timerActive := false,
                   responses := s.responses ++ [.errResp 404 notFoundMsg] }
        else s
      else s

/-- Run the single-message handler over a sequence of delivered events. -/
def singleRun (events : List SingleEvent) : SingleState :=
  events.foldl singleStep singleInitState

/-! ## Session gates (`activeConnections` checks at lines 88, 137, 363, 642, 709) -/

/-- `'Ungültige Session'`. -/
def invalidSessionMsg : String := "Ungültige Session"

/-- The process-wide `activeConnections` map, modelled as an association list
from session id to connection handle (handles kept opaque as strings). -/
abbrev Registry := List (String × String)

/-- `!sessionId || !activeConnections.has(sessionId)`: the request's
`sessionId` is absent (`none`), empty (JS-falsy), or unregistered. -/
def sessionInvalid (conns : Registry) (sid : Option String) : Bool :=
  match sid with
  | none => true
  | some s => s.isEmpty || (conns.lookup s).isNone

/-- Entry gate of `GET /api/folders` (lines 88-92): reject with 401
`InvalidSession` before touching the connection, else resolve the handle. -/
def foldersGate (conns : Registry) (sid : Option String) :
    Except (Nat × String) String :=
  if sessionInvalid conns sid then Except.error (401, invalidSessionMsg)
  else Except.ok ((conns.lookup (sid.getD "")).getD "")

/-- Entry gate of `GET /api/emails` (lines 137-141). -/
def emailsGate (conns : Registry) (sid : Option String) :
    Except (Nat × String) String :=
  if sessionInvalid conns sid then Except.error (401, invalidSessionMsg)
  else Except.ok ((conns.lookup (sid.getD "")).getD "")

/-- Entry gate of `GET /api/email/:id` (lines 363-367). -/
def emailByIdGate (conns : Registry) (sid : Option String) :
    Except (Nat × String) String :=
  if sessionInvalid conns sid then Except.error (401, invalidSessionMsg)
  else Except.ok ((conns.lookup (sid.getD "")).getD "")

/-- Entry gate of `POST /api/send-email` (lines 642-647). -/
def sendEmailGate (conns : Registry) (sid : Option String) :
    Except (Nat × String) String :=
  if sessionInvalid conns sid then Except.error (401, invalidSessionMsg)
  else Except.ok ((conns.lookup (sid.getD "")).getD "")

/-- Entry gate of `POST /api/forward-email` (lines 709-714). -/
def forwardEmailGate (conns : Registry) (sid : Option String) :
    Except (Nat × String) String :=
  if sessionInvalid conns sid then Except.error (401, invalidSessionMsg)
  else Except.ok ((conns.lookup (sid.getD "")).getD "")

/-! ## Folder lister (`GET /api/folders`, `processBoxes`, lines 101-123) -/

/-- One flattened folder entry (`folders.push({...})`, lines 107-112). -/
structure Folder where
  id : String
  name : String
  path : String
  unread : Nat
deriving DecidableEq, Repr

/-- A node of the server-reported mailbox tree as delivered by `getBoxes`:
its key (name), its hierarchy `delimiter` attribute, and its `children`
object (`none` models `null`). -/
inductive Box where
  | node (name : String) (delimiter : String) (children : Option (List Box))

/-- `processBoxes` (lines 104-118), translated verbatim: one entry per key
with `fullPath = path ? path + box : box`, then recursion into children with
the path extended by the literal string `'/'` (the node's `delimiter`
attribute is never read). -/
def processBoxes : List Box → String → List Folder
  | [], _ => []
  | Box.node name _ children :: rest, path =>
      let fullPath := if path = "" then name else path ++ name
      ({ id := fullPath, name := name, path := fullPath, unread := 0 } ::
        (match children with
         | some cs => processBoxes cs (fullPath ++ "/")
         | none => [])) ++ processBoxes rest path

/-- Modelled from the spec for comparison with `processBoxes`: the Folder
Lister as the spec states it — "recurse into children with the path extended
by the hierarchy delimiter", the delimiter being the server-reported one on
each node. -/
def flattenWithDelim : List Box → String → List Folder
  | [], _ => []
  | Box.node name delim children :: rest, path =>
      let fullPath := path ++ name
      ({ id := fullPath, name := name, path := fullPath, unread := 0 } ::
        (match children with
         | some cs => flattenWithDelim cs (fullPath ++ delim)
         | none => [])) ++ flattenWithDelim rest path

/-- Abstract enumeration of the tree's nodes in emission order, each with its
ancestor-name chain; used to state completeness and path shape. -/
def boxChains : List Box → List String → List (List String × String)
  | [], _ => []
  | Box.node name _ children :: rest, ancestors =>
      (ancestors, name) ::
        ((match children with
          | some cs => boxChains cs (ancestors ++ [name])
          | none => []) ++ boxChains rest ancestors)

/-- Each ancestor name followed by a `'/'`, concatenated: the path accumulator
`processBoxes` threads for that ancestor chain. -/
def slashChain : List String → String
  | [] => ""
  | n :: rest => n ++ "/" ++ slashChain rest

/-! ## Attachment detection (`findAttachmentParts`, lines 216-246) -/

/-- A node of the server-reported MIME structure tree: either an array of
sub-structures (node-imap nests arrays) or a part object carrying an optional
`disposition.type`, an optional `params.name`, and an optional `parts` array
(`none` models an absent field). -/
inductive MimeStruct where
  | arrayOf (items : List MimeStruct)
  | part (dispType : Option String) (paramName : Option String)
      (parts : Option (List MimeStruct))

/-- ASCII lowercasing, modelling `toLowerCase()` on the disposition type. -/
def lowerStr (s : String) : String := ⟨s.data.map Char.toLower⟩

/-- `struct.disposition && ['attachment', 'inline']
.includes(struct.disposition.type.toLowerCase())` (lines 228-229). -/
def isAttachDisp (d : Option String) : Bool :=
  match d with
  | none => false
  | some t => ["attachment", "inline"].contains (lowerStr t)

mutual

/-- `findAttachmentParts` (lines 220-242): arrays recurse element-wise and
return; part objects are pushed once per satisfied test (disposition, then
named param), then their `parts` are walked.  The mutated `attachments`
accumulator is threaded explicitly. -/
def findAttachmentParts (struct : MimeStruct) (attachments : List MimeStruct) :
    List MimeStruct :=
  match struct with
  | .arrayOf items => findAttachmentPartsList items attachments
  | .part d p parts =>
      let a1 := if isAttachDisp d then attachments ++ [struct] else attachments
      let a2 := if jsTruthy p then a1 ++ [struct] else a1
      match parts with
      | some ps => findAttachmentPartsList ps a2
      | none => a2

/-- `forEach` over an array of sub-structures (lines 222-224 and 238-240). -/
def findAttachmentPartsList (items : List MimeStruct)
    (attachments : List MimeStruct) : List MimeStruct :=
  match items with
  | [] => attachments
  | s :: rest => findAttachmentPartsList rest (findAttachmentParts s attachments)

end

/-- `email.hasAttachments = attachments.length > 0` after walking
`attrs.struct` with an empty accumulator (lines 244-245). -/
def structHasAttachments (struct : MimeStruct) : Bool :=
  (findAttachmentParts struct []).length > 0

mutual

/-- Spec-side predicate: some node at some depth has disposition type
`attachment`/`inline` (case-insensitively) or a named `params.name`. -/
def hasAttachNode : MimeStruct → Bool
  | .arrayOf items => hasAttachNodeList items
  | .part d p parts =>
      isAttachDisp d || jsTruthy p ||
        (match parts with
         | some ps => hasAttachNodeList ps
         | none => false)

/-- List version of `hasAttachNode`. -/
def hasAttachNodeList : List MimeStruct → Bool
  | [] => false
  | s :: rest => hasAttachNode s || hasAttachNodeList rest

end

/-! ## HTML sanitization (`/api/email/:id`, lines 457-476)

The three `String.prototype.replace` calls with global regexes
`/<script\b[^<]*(?:(?!<\/script>)<[^<]*)*<\/script>/gi`, `/on\w+="[^"]*"/g`
and `/on\w+='[^']*'/g` are embedded as deterministic matchers: for each of
these patterns the greedy sub-matches are followed by mandatory characters
excluded from the repeated class, so backtracking can never find an
alternative and the leftmost match is computed by a single forward scan,
which is what the matchers below implement; global replacement scans the
original string left to right, removing each leftmost match and resuming
after it, exactly like `replace` with `g`.  Recursions that skip over a
matched region carry a fuel argument bounded by the remaining length (each
step consumes at least one character, so the fuel never runs out). -/

/-- JS regex `\w` (no `u` flag): ASCII letters, digits, underscore. -/
def isWordChar (c : Char) : Bool := c.isAlphanum || c = '_'

/-- The single-quote character. -/
def squote : Char := Char.ofNat 39

/-- The double-quote character. -/
def dquote : Char := Char.ofNat 34

/-- Case-insensitive prefix test (the script regex has the `i` flag). -/
def startsWithCI : List Char → List Char → Bool
  | [], _ => true
  | _ :: _, [] => false
  | p :: ps, c :: cs => (c.toLower = p.toLower) && startsWithCI ps cs

/-- The closing literal `</script>` of the script regex. -/
def scriptClose : List Char := "</script>".data

/-- The loop `(?:(?!<\/script>)<[^<]*)*<\/script>` of the script regex,
entered at a position holding `<` (or at the end): succeed on `</script>`,
otherwise consume `<` plus the following `[^<]*` chunk and continue. -/
def scriptGoFuel : Nat → List Char → Option Nat
  | 0, _ => none
  | _ + 1, [] => none
  | fuel + 1, c :: cs =>
      if startsWithCI scriptClose (c :: cs) then some 9
      else if c = '<' then
        let chunk := cs.takeWhile (fun d => d ≠ '<')
        match scriptGoFuel fuel (cs.drop chunk.length) with
        | some n => some (1 + chunk.length + n)
        | none => none
      else none

/-- `scriptGoFuel` with adequate fuel. -/
def scriptGo (l : List Char) : Option Nat := scriptGoFuel l.length l

/-- Leftmost-anchored match of the script-block regex
`<script\b[^<]*(?:(?!<\/script>)<[^<]*)*<\/script>` (case-insensitive),
returning the match length. -/
def matchScript (l : List Char) : Option Nat :=
  if startsWithCI "<script".data l then
    let rest := l.drop 7
    let boundary :=
      match rest with
      | [] => true
      | c :: _ => !isWordChar c
    if boundary then
      let chunk := rest.takeWhile (fun d => d ≠ '<')
      match scriptGo (rest.drop chunk.length) with
      | some n => some (7 + chunk.length + n)
      | none => none
    else none
  else none

/-- Leftmost-anchored match of the event-handler regex `on\w+=q[^q]*q` for a
quote character `q` (these two regexes are case-sensitive: no `i` flag). -/
def matchOnAttr (q : Char) (l : List Char) : Option Nat :=
  match l with
  | 'o' :: 'n' :: rest =>
      let w := rest.takeWhile isWordChar
      if w.length = 0 then none
      else
        match rest.drop w.length with
        | '=' :: r2 =>
            match r2 with
            | c :: r3 =>
                if c = q then
                  let body := r3.takeWhile (fun d => d ≠ q)
                  match r3.drop body.length with
                  | d :: _ =>
                      if d = q then some (2 + w.length + 2 + body.length + 1)
                      else none
                  | [] => none
                else none
            | [] => none
        | _ => none
  | _ => none

/-- Global replacement by the empty string: scan left to right, drop each
leftmost match and resume after it (`str.replace(/re/g, '')`). -/
def replaceAllFuel (m : List Char → Option Nat) : Nat → List Char → List Char
  | 0, l => l
  | _ + 1, [] => []
  | fuel + 1, c :: rest =>
      match m (c :: rest) with
      | some (n + 1) => replaceAllFuel m fuel (rest.drop n)
      | some 0 => c :: replaceAllFuel m fuel rest
      | none => c :: replaceAllFuel m fuel rest

/-- `replaceAllFuel` with adequate fuel. -/
def replaceAllWith (m : List Char → Option Nat) (l : List Char) : List Char :=
  replaceAllFuel m l.length l

/-- Does the pattern match anywhere in the string? -/
def hasMatch (m : List Char → Option Nat) : List Char → Bool
  | [] => false
  | c :: rest => (m (c :: rest)).isSome || hasMatch m rest

/-- The sanitizer of lines 462-465: remove script blocks, then
double-quoted event handlers, then single-quoted event handlers. -/
def sanitizeHtml (s : String) : String :=
  ⟨replaceAllWith (matchOnAttr squote)
    (replaceAllWith (matchOnAttr dquote)
      (replaceAllWith matchScript s.data))⟩

/-- The string contains a script block (a match of the script regex). -/
def hasScriptBlock (s : String) : Bool := hasMatch matchScript s.data

/-- The string contains a double-quoted inline event handler. -/
def hasOnAttrDq (s : String) : Bool := hasMatch (matchOnAttr dquote) s.data

/-- The string contains a single-quoted inline event handler. -/
def hasOnAttrSq (s : String) : Bool := hasMatch (matchOnAttr squote) s.data

/-- A one-character string holding a single quote. -/
def sqS : String := ⟨[squote]⟩

/-- A one-character string holding a double quote. -/
def dqS : String := ⟨[dquote]⟩

/-- The splicing input `onload=onx='q'"evil"`: removing the single-quoted
handler `onx='q'` joins the surrounding text into a double-quoted handler. -/
def xssInput : String := "onload=onx=" ++ sqS ++ "q" ++ sqS ++ dqS ++ "evil" ++ dqS

/-! ## Single-message body selection (`/api/email/:id`, lines 457-476) -/

/-- The `simpleParser` output fields the body selection reads: `html`,
`textAsHtml` and `text` (`none` models an absent/false field). -/
structure ParsedMessage where
  html : Option String
  textAsHtml : Option String
  text : Option String

/-- One global single-character `replace` (the replacement strings introduce
no later-pass trigger characters, so sequential passes equal per-character
substitution). -/
def replaceChar (c : Char) (rep : String) (s : String) : String :=
  String.join (s.data.map (fun d => if d = c then rep else String.singleton d))

/-- Entity escaping of the plain-text fallback (line 473):
`&`→`&amp;`, `<`→`&lt;`, `>`→`&gt;`. -/
def escapeText (t : String) : String :=
  replaceChar '>' "&gt;" (replaceChar '<' "&lt;" (replaceChar '&' "&amp;" t))

/-- `'<p>Diese E-Mail enthält keinen Inhalt</p>'` (line 475). -/
def noContentHtml : String := "<p>Diese E-Mail enthält keinen Inhalt</p>"

/-- The `sanitizedHtml` fallback chain of lines 460-476: sanitize a truthy
`html`; else return a truthy `textAsHtml` verbatim; else entity-escape a
truthy `text` inside `<pre>`; else the placeholder.  (The `try/catch` around
the sanitizer cannot fire in this embedding: the sanitizer is total.) -/
def selectBody (p : ParsedMessage) : String :=
  if jsTruthy p.html then sanitizeHtml (p.html.getD "")
  else if jsTruthy p.textAsHtml then p.textAsHtml.getD ""
  else if jsTruthy p.text then "<pre>" ++ escapeText (p.text.getD "") ++ "</pre>"
  else noContentHtml

/-! ## Forward pipeline (`POST /api/forward-email`, lines 703-844) -/

/-- The fields of the re-fetched original message that forwarding reads:
optional `subject`, `from?.text`, `to?.text`, `date?.toLocaleString()`
(carried as its rendering), `text`, `html`, and the optional `attachments`
array (opaque items). -/
structure OrigEmail where
  subject : Option String
  fromText : Option String
  toText : Option String
  dateLocale : Option String
  text : Option String
  html : Option String
  attachments : Option (List String)
deriving DecidableEq, Repr

/-- The placeholder original built when the fetch ends without a message
(lines 752-759); its `date` is `new Date()`, rendered as `nowLocale`. -/
def placeholderOriginal (nowLocale : String) : OrigEmail :=
  { subject := some "Unbekannter Betreff", fromText := some "Unbekannt",
    toText := some "Unbekannt", dateLocale := some nowLocale,
    text := some "", html := some "", attachments := none }

/-- How the original-fetch promise (lines 720-764) settles: `openBox` error,
fetch error or parse error reject it; a parsed message or the
end-without-message placeholder resolve it. -/
inductive FetchOutcome where
  | openBoxError (msg : String)
  | fetchError (msg : String)
  | parseError (msg : String)
  | parsed (orig : OrigEmail)
  | endNoMessage

/-- The settled original-fetch promise: rejections become `Except.error`
(caught at line 840 as a 500), resolutions yield the original (the
placeholder when no message was seen). -/
def fetchOriginal (nowLocale : String) : FetchOutcome → Except String OrigEmail
  | .openBoxError m => Except.error m
  | .fetchError m => Except.error m
  | .parseError m => Except.error m
  | .parsed e => Except.ok e
  | .endNoMessage => Except.ok (placeholderOriginal nowLocale)

/-- A recipient field that is either a bare string or an array to be joined
with commas (`Array.isArray(to) ? to.join(',') : to`, lines 818-820). -/
inductive AddrField where
  | one (s : String)
  | many (l : List String)
deriving DecidableEq, Repr

/-- `Array.isArray(x) ? x.join(',') : x` -/
def joinAddr : AddrField → String
  | .one s => s
  | .many l => String.intercalate "," l

/-- `'---------- Weitergeleitete Nachricht ----------'` -/
def dashLine : String := "---------- Weitergeleitete Nachricht ----------"

/-- The quoted plain-text block (lines 796-801). -/
def forwardedTextOf (orig : OrigEmail) (addl : Option String)
    (nowLocale : String) : String :=
  (if jsTruthy addl then addl.getD "" ++ "\n\n" ++ dashLine ++ "\n\n"
   else dashLine ++ "\n\n")
  ++ "Von: " ++ orDefault orig.fromText "Unbekannt" ++ "\n"
  ++ "Datum: " ++ orDefault orig.dateLocale nowLocale ++ "\n"
  ++ "Betreff: " ++ orDefault orig.subject "Kein Betreff" ++ "\n"
  ++ "An: " ++ orDefault orig.toText "Unbekannt" ++ "\n\n"
  ++ orDefault orig.text ""

/-- The quoted HTML block (lines 804-812), built only when the original has a
truthy `html`. -/
def forwardedHtmlOf (orig : OrigEmail) (addl : Option String)
    (nowLocale : String) : String :=
  if jsTruthy orig.html then
    (if jsTruthy addl then
       "<p>" ++ replaceChar '\n' "<br>" (addl.getD "") ++
         "</p><hr><div style=\"margin-top:10px;\"><p><b>" ++ dashLine ++ "</b></p>"
     else "<hr><div><p><b>" ++ dashLine ++ "</b></p>")
    ++ "<p><b>Von:</b> " ++ orDefault orig.fromText "Unbekannt" ++ "</p>"
    ++ "<p><b>Datum:</b> " ++ orDefault orig.dateLocale nowLocale ++ "</p>"
    ++ "<p><b>Betreff:</b> " ++ orDefault orig.subject "Kein Betreff" ++ "</p>"
    ++ "<p><b>An:</b> " ++ orDefault orig.toText "Unbekannt" ++ "</p></div>"
    ++ "<div style=\"margin-top:10px;\">" ++ orig.html.getD "" ++ "</div>"
  else ""

/-- The idempotent `Fwd:` subject (lines 791-793). -/
def fwdSubject (s : Option String) : String :=
  match s with
  | some t =>
      if t.startsWith "Fwd:" then t
      else "Fwd: " ++ (if t.isEmpty then "Kein Betreff" else t)
  | none => "Fwd: " ++ "Kein Betreff"

/-- The `mailOptions` passed to `transporter.sendMail` (lines 823-832);
`fromUser` models `from` (a Lean keyword). -/
structure MailOptions where
  fromUser : String
  toAddr : String
  cc : Option String
  bcc : Option String
  subject : String
  text : String
  html : String
  attachments : List String
deriving DecidableEq, Repr

/-- Compose the forwarded mail from the (possibly placeholder) original
(lines 791-832); `attachments` is `originalEmail.attachments || []`. -/
def composeForward (user : String) (orig : OrigEmail) (toRecip : AddrField)
    (cc bcc : Option AddrField) (addl : Option String) (nowLocale : String) :
    MailOptions :=
  { fromUser := user,
    toAddr := joinAddr toRecip,
    cc := cc.map joinAddr,
    bcc := bcc.map joinAddr,
    subject := fwdSubject orig.subject,
    text := forwardedTextOf orig addl nowLocale,
    html := forwardedHtmlOf orig addl nowLocale,
    attachments := orig.attachments.getD [] }

/-- The forward handler's response. -/
inductive ForwardResponse where
  | sent (mail : MailOptions)
  | errorResp (status : Nat) (msg : String)
deriving DecidableEq, Repr

/-- The forward handler past its session gate (lines 716-843): await the
original fetch — a rejection is caught and answered 500; otherwise compose
and send, `sendErr` being `sendMail`'s failure, also caught as a 500. -/
def forwardHandlerCont (user : String) (outcome : FetchOutcome)
    (toRecip : AddrField) (cc bcc : Option AddrField) (addl : Option String)
    (nowLocale : String) (sendErr : Option String) : ForwardResponse :=
  match fetchOriginal nowLocale outcome with
  | Except.error m => ForwardResponse.errorResp 500 m
  | Except.ok orig =>
      match sendErr with
      | some m => ForwardResponse.errorResp 500 m
      | none => ForwardResponse.sent (composeForward user orig toRecip cc bcc addl nowLocale)

end MailGateway

open MailGateway

/-- Accumulating message events only appends to `emails` and changes nothing
else. -/
theorem listStep_messages (ms : List EmailSummary) (acc : List EmailSummary) :
    (ms.map ListEvent.message).foldl listStep
      { hasResponded := false, timerActive := true, emails := acc, responses := [] } =
    { hasResponded := false, timerActive := true, emails := acc ++ ms, responses := [] } := by
  induction ms generalizing acc with
  | nil => simp
  | cons e rest ih =>
      simp only [List.map_cons, List.foldl_cons, listStep]
      rw [ih]
      simp

/-- C4: for every mailbox with `total ≥ 1` messages the listing pipeline
fetches exactly the sequence-number range `[total − min(30,total) + 1, total]`
(the `Math.max` guard is redundant there); for `total = 0` it returns the
empty list immediately without fetching; for `total = 45` the range is
`16:45`. -/
theorem C4_listing_range (total : Nat) :
    (1 ≤ total →
      listingPlan total = some (total - min 30 total + 1, total)) ∧
    listingPlan 0 = none ∧
    listingPlan 45 = some (16, 45) := by
  refine ⟨fun h => ?_, by decide, by decide⟩
  unfold listingPlan rangeStart lastCount
  have h0 : total ≠ 0 := by omega
  simp only [h0, if_false]
  rw [Nat.max_eq_right (Nat.le_add_left 1 (total - min 30 total))]

/-- C4 witness at `total = 45`. -/
theorem C4_listing_range_witness :
    1 ≤ 45 ∧ listingPlan 45 = some (45 - min 30 45 + 1, 45) :=
  ⟨by decide, (C4_listing_range 45).1 (by decide)⟩

/-- C5: if the 30-second watchdog fires while the listing fetch is still in
flight (only message-accumulation events so far), the single response is
`{success:true, emails:[accumulated], partial:true}` when at least one summary
was accumulated, and the 500 timeout error when none was. -/
theorem C5_listing_watchdog (ms : List EmailSummary) :
    (listRun (ms.map ListEvent.message ++ [ListEvent.timeoutFire])).responses =
      [if ms.isEmpty then .errResp 500 listTimeoutMsg
       else .okEmails ms true] := by
  unfold listRun
  rw [List.foldl_append]
  rw [show listInitState =
      { hasResponded := false, timerActive := true, emails := [], responses := [] } from rfl]
  rw [listStep_messages]
  cases ms with
  | nil => simp [listStep]
  | cons e rest => simp [listStep]

/-- C1: the single-message watchdog handler (lines 377-383) neither tests nor
sets the `hasResponded` flag, so the interleaving "watchdog fires, then
parsing completes" makes the handler send two responses for one request —
the 504 timeout and then the success — refuting the claim that a single-use
responded flag guards every exit path of both pipelines. -/
theorem C1_single_double_response :
    (singleRun [.timeoutFire, .parseOk "parsed-email"]).responses =
      [.errResp 504 singleTimeoutMsg, .okParsed "parsed-email"] ∧
    (singleRun [.timeoutFire, .parseOk "parsed-email"]).responses.length = 2 := by
  constructor <;> rfl

/-- C2: when the UID fetch fails and the fallback sequence-number fetch does
find the message, the code still answers 404: the fallback fetch registers no
`message` handler (its processing is only a comment in the source, lines
558-559), so the found message is dropped and the `end` handler declares
NotFound — refuting the claim that this scenario yields a success response
carrying the message. -/
theorem C2_seq_fallback_found_still_404 :
    (singleRun [.uidFetchError "UID fetch failed" none,
                .seqFetchMessage "the requested message",
                .seqFetchEnd]).responses =
      [.errResp 404 notFoundMsg] := by
  rfl

/-- C9: on each of the five session-bearing endpoints, a request whose
`sessionId` is absent, empty, or not registered in the connection map is
rejected with the 401 `InvalidSession` error before any pipeline work
resolves the connection. -/
theorem C9_session_gates (conns : Registry) (sid : Option String)
    (h : sessionInvalid conns sid = true) :
    foldersGate conns sid = Except.error (401, invalidSessionMsg) ∧
    emailsGate conns sid = Except.error (401, invalidSessionMsg) ∧
    emailByIdGate conns sid = Except.error (401, invalidSessionMsg) ∧
    sendEmailGate conns sid = Except.error (401, invalidSessionMsg) ∧
    forwardEmailGate conns sid = Except.error (401, invalidSessionMsg) := by
  refine ⟨?_, ?_, ?_, ?_, ?_⟩ <;>
    simp [foldersGate, emailsGate, emailByIdGate, sendEmailGate,
          forwardEmailGate, h]

/-- Appending one name to an ancestor chain extends the threaded accumulator
by that name and a slash. -/
theorem slashChain_snoc (names : List String) (n : String) :
    slashChain (names ++ [n]) = (slashChain names ++ n) ++ "/" := by
  induction names with
  | nil => simp [slashChain]
  | cons m ms ih =>
      show m ++ "/" ++ slashChain (ms ++ [n]) = m ++ "/" ++ slashChain ms ++ n ++ "/"
      rw [ih]
      simp [String.append_assoc]

/-- `fullPath = path ? path + box : box` collapses to plain concatenation when
`path` is a slash chain. -/
theorem fullPath_slash (names : List String) (n : String) :
    (if slashChain names = "" then n else slashChain names ++ n) =
      slashChain names ++ n := by
  by_cases h : slashChain names = "" <;> simp [h]

/-- C6 counterexample: on a server whose hierarchy delimiter is `'.'`, the
code emits the child path `"Parent/Child"` while the claim's
delimiter-joined flattening dictates `"Parent.Child"` — `processBoxes` joins
with a hardcoded `'/'`, not the server's delimiter. -/
theorem C6_delimiter_counterexample :
    (processBoxes [Box.node "Parent" "." (some [Box.node "Child" "." none])] "").map
        Folder.path = ["Parent", "Parent/Child"] ∧
    (flattenWithDelim [Box.node "Parent" "." (some [Box.node "Child" "." none])] "").map
        Folder.path = ["Parent", "Parent.Child"] ∧
    processBoxes [Box.node "Parent" "." (some [Box.node "Child" "." none])] "" ≠
      flattenWithDelim [Box.node "Parent" "." (some [Box.node "Child" "." none])] "" := by
  have h1 : (processBoxes [Box.node "Parent" "." (some [Box.node "Child" "." none])] "").map
      Folder.path = ["Parent", "Parent/Child"] := by
    simp [processBoxes]
  have h2 : (flattenWithDelim [Box.node "Parent" "." (some [Box.node "Child" "." none])] "").map
      Folder.path = ["Parent", "Parent.Child"] := by
    simp [flattenWithDelim]
  refine ⟨h1, h2, fun h => ?_⟩
  rw [h, h2] at h1
  exact absurd h1 (by decide)

/-- C6 (amended): the Folder Lister emits exactly one entry per node of the
tree, in emission order, with `name` the leaf name and `id = path` the
ancestor names and leaf joined by the fixed separator `'/'` — regardless of
the server's hierarchy delimiter.  Stated for every accumulator of ancestor
shape; the endpoint's call is the `names = []` instance. -/
theorem C6_flatten_completeness (boxes : List Box) (names : List String) :
    processBoxes boxes (slashChain names) =
      (boxChains boxes names).map
        (fun p => { id := slashChain p.1 ++ p.2, name := p.2,
                    path := slashChain p.1 ++ p.2, unread := 0 }) := by
  refine processBoxes.induct
    (motive := fun boxes path => ∀ names, path = slashChain names →
      processBoxes boxes path =
        (boxChains boxes names).map
          (fun p => { id := slashChain p.1 ++ p.2, name := p.2,
                      path := slashChain p.1 ++ p.2, unread := 0 }))
    ?_ ?_ boxes (slashChain names) names rfl
  · intro x names h
    simp [processBoxes, boxChains]
  · intro name delim children rest path fp ih1 ih2 names hpath
    subst hpath
    have hfp : fp = slashChain names ++ name := by
      have h0 : fp = if slashChain names = "" then name else slashChain names ++ name := rfl
      rw [h0, fullPath_slash]
    cases children with
    | none =>
        simp only [processBoxes, boxChains, List.map_cons, List.map_append]
        rw [fullPath_slash]
        simp [ih2 names rfl]
    | some cs =>
        simp only at ih1
        have hch : fp ++ "/" = slashChain (names ++ [name]) := by
          rw [slashChain_snoc, hfp]
        have hcs := ih1 (names ++ [name]) hch
        rw [hfp] at hcs
        simp only [processBoxes, boxChains, List.map_cons, List.map_append]
        rw [fullPath_slash]
        simp [hcs, ih2 names rfl]

/-- Accumulator lemma: walking a structure appends its findings to the given
accumulator. -/
theorem fap_append :
    ∀ (s : MimeStruct) (acc : List MimeStruct),
      findAttachmentParts s acc = acc ++ findAttachmentParts s [] := by
  intro s acc
  refine findAttachmentParts.induct
    (motive_1 := fun s _ => ∀ a, findAttachmentParts s a = a ++ findAttachmentParts s [])
    (motive_2 := fun items _ =>
      ∀ a, findAttachmentPartsList items a = a ++ findAttachmentPartsList items [])
    ?_ ?_ ?_ ?_ ?_ s acc acc
  · intro _ items ih a
    simp only [findAttachmentParts]
    rw [ih a]
  · intro _ d p ps
    dsimp only
    intro ih a
    by_cases hd : isAttachDisp d <;> by_cases hp : jsTruthy p <;>
      simp [findAttachmentParts, hd, hp] <;>
      (conv_rhs => rw [ih]) <;> rw [ih] <;> simp [List.append_assoc]
  · intro _ d p a
    by_cases hd : isAttachDisp d <;> by_cases hp : jsTruthy p <;>
      simp [findAttachmentParts, hd, hp]
  · intro _ a
    simp [findAttachmentPartsList]
  · intro _ s rest ih1 ih2 a
    simp only [findAttachmentPartsList]
    rw [ih2 (findAttachmentParts s a), ih2 (findAttachmentParts s []), ih1 a]
    simp [List.append_assoc]

/-- List version of the accumulator lemma. -/
theorem fapl_append (items : List MimeStruct) (acc : List MimeStruct) :
    findAttachmentPartsList items acc = acc ++ findAttachmentPartsList items [] := by
  have h2 := fap_append (.arrayOf items) acc
  simpa [findAttachmentParts] using h2

/-- The walk finds nothing exactly when no node of the tree passes the
disposition or named-param test. -/
theorem fap_empty_iff :
    ∀ (s : MimeStruct),
      (findAttachmentParts s [] = []) ↔ (hasAttachNode s = false) := by
  intro s
  refine findAttachmentParts.induct
    (motive_1 := fun s _ =>
      (findAttachmentParts s [] = []) ↔ (hasAttachNode s = false))
    (motive_2 := fun items _ =>
      (findAttachmentPartsList items [] = []) ↔ (hasAttachNodeList items = false))
    ?_ ?_ ?_ ?_ ?_ s []
  · intro _ items ih
    simpa [findAttachmentParts, hasAttachNode] using ih
  · intro _ d p ps
    dsimp only
    intro ih
    by_cases hd : isAttachDisp d <;> by_cases hp : jsTruthy p <;>
      simp [findAttachmentParts, hasAttachNode, hd, hp] <;>
      rw [fapl_append] <;> simp [ih]
  · intro _ d p
    by_cases hd : isAttachDisp d <;> by_cases hp : jsTruthy p <;>
      simp [findAttachmentParts, hasAttachNode, hd, hp]
  · intro _
    simp [findAttachmentPartsList, hasAttachNodeList]
  · intro _ s rest ih1 ih2
    rw [show findAttachmentPartsList (s :: rest) [] =
          findAttachmentPartsList rest (findAttachmentParts s []) from by
        simp [findAttachmentPartsList],
      fapl_append rest (findAttachmentParts s [])]
    constructor
    · intro h
      rcases List.append_eq_nil.mp h with ⟨h1, h2⟩
      simp [hasAttachNodeList, ih1.mp h1, ih2.mp h2]
    · intro h
      rcases Bool.or_eq_false_iff.mp (by simpa [hasAttachNodeList] using h) with ⟨h1, h2⟩
      simp [ih1.mpr h1, ih2.mpr h2]

/-- C8: the listing pipeline reports `hasAttachments = true` for a MIME
structure tree exactly when some node at some depth has disposition type
`attachment` or `inline` (case-insensitively) or carries a named
`params.name`; a tree with no such node yields `false`. -/
theorem C8_attachment_detection (s : MimeStruct) :
    structHasAttachments s = hasAttachNode s := by
  unfold structHasAttachments
  cases h : hasAttachNode s
  · rw [(fap_empty_iff s).mpr h]
    rfl
  · have hne : findAttachmentParts s [] ≠ [] := by
      intro he
      rw [(fap_empty_iff s).mp he] at h
      exact Bool.false_ne_true h
    have : 0 < (findAttachmentParts s []).length := List.length_pos.mpr hne
    simp [this]

/-- C7: the single-pass regex sanitizer can be bypassed by splicing — removal
of a matched region joins its surroundings into a new occurrence that is
never rescanned.  `<sc<script></script>ript>alert(1)</script>` contains a
script block and sanitizes to `<script>alert(1)</script>`, which still is
one; `onload=onx='q'"evil"` contains a single-quoted handler and sanitizes to
`onload="evil"`, a double-quoted handler (the double-quote pass has already
run).  This refutes the claim for both prohibited shapes. -/
theorem C7_sanitizer_bypass :
    hasScriptBlock "<sc<script></script>ript>alert(1)</script>" = true ∧
    sanitizeHtml "<sc<script></script>ript>alert(1)</script>" =
      "<script>alert(1)</script>" ∧
    hasScriptBlock (sanitizeHtml "<sc<script></script>ript>alert(1)</script>") = true ∧
    hasOnAttrSq xssInput = true ∧
    sanitizeHtml xssInput = "onload=" ++ dqS ++ "evil" ++ dqS ∧
    hasOnAttrDq (sanitizeHtml xssInput) = true := by
  refine ⟨?_, ?_, ?_, ?_, ?_, ?_⟩ <;> rfl

/-- C10: when the parsed message has no truthy `html` part but does have a
truthy `textAsHtml` rendering, the response body is that `textAsHtml` string
verbatim — the script/event-handler stripping is applied only to the `html`
branch, never to `textAsHtml`. -/
theorem C10_textAsHtml_verbatim (h : Option String) (t : String)
    (txt : Option String) (hh : jsTruthy h = false) (ht : t ≠ "") :
    selectBody { html := h, textAsHtml := some t, text := txt } = t := by
  unfold selectBody
  simp only [hh, Bool.false_eq_true, if_false]
  have he : t.isEmpty = false := by
    by_cases hc : t.isEmpty
    · exact absurd ((String.isEmpty_iff t).mp hc) ht
    · simpa using hc
  have : jsTruthy (some t) = true := by
    simp [jsTruthy, he]
  simp [this]

/-- C10 witness: a `textAsHtml` payload that itself contains a script block
and an inline handler is returned untouched. -/
theorem C10_textAsHtml_verbatim_witness :
    jsTruthy none = false ∧
    "<script>x</script><a onclick=\"y\">z</a>" ≠ "" ∧
    selectBody { html := none,
                 textAsHtml := some "<script>x</script><a onclick=\"y\">z</a>",
                 text := none } =
      "<script>x</script><a onclick=\"y\">z</a>" :=
  ⟨rfl, by decide, C10_textAsHtml_verbatim none _ none rfl (by decide)⟩

/-- C3 counterexample: when the re-fetch of the original message fails (the
fetch emits `error`, as an IMAP server does for an unknown identifier), the
promise rejects and the handler answers 500 — the forward is not composed and
sent with a placeholder, so the request does hard-fail solely because the
original is unfindable. -/
theorem C3_fetch_error_hard_fails :
    forwardHandlerCont "user@example.com"
        (FetchOutcome.fetchError "Nothing to fetch")
        (AddrField.one "dest@example.com") none none none
        "2026-01-01 12:00:00" none =
      ForwardResponse.errorResp 500 "Nothing to fetch" := by
  rfl

/-- C3 (amended): only when the re-fetch completes without error but without
finding a message is the placeholder original substituted and the forward
still composed and sent; a fetch error rejects the promise and the request
answers 500 with that error. -/
theorem C3_placeholder_on_absence (user : String) (toRecip : AddrField)
    (cc bcc : Option AddrField) (addl : Option String) (now : String) :
    forwardHandlerCont user FetchOutcome.endNoMessage toRecip cc bcc addl now none =
      ForwardResponse.sent
        (composeForward user (placeholderOriginal now) toRecip cc bcc addl now) ∧
    (∀ m sendErr,
      forwardHandlerCont user (FetchOutcome.fetchError m) toRecip cc bcc addl now sendErr =
        ForwardResponse.errorResp 500 m) :=
  ⟨rfl, fun _ _ => rfl⟩

/-- C9 witness: an absent `sessionId` against an empty registry is rejected
by all five gates. -/
theorem C9_session_gates_witness :
    sessionInvalid [] none = true ∧
    foldersGate [] none = Except.error (401, invalidSessionMsg) ∧
    emailsGate [] none = Except.error (401, invalidSessionMsg) ∧
    emailByIdGate [] none = Except.error (401, invalidSessionMsg) ∧
    sendEmailGate [] none = Except.error (401, invalidSessionMsg) ∧
    forwardEmailGate [] none = Except.error (401, invalidSessionMsg) :=
  ⟨by decide, C9_session_gates [] none (by decide)⟩
